import Mathlib

/-!
Verification of the Plant crop-recommendation program.

This file gives a shallow embedding of the core logic of `Full.py` (and its
no-GUI twin): the climate resolver (`get_climate_data` together with
`get_alternative_precipitation`), the report aggregator (`get_location_info`,
`get_soil_data`), the CSV persistence pair (`export_report_to_csv`,
`read_report_from_csv`), and the fitness scorer (`plant_fitness`,
`recommend_crop`).

Modelling conventions:
* Python floats of the scorer are modelled as real numbers (`ℝ`), since the
  scorer uses the transcendental `exp`; daily climate series are modelled as
  rationals (`ℚ`) so that the sentinel filtering and sums stay executable.
* HTTP providers are modelled as oracle functions passed in as arguments;
  `none` models any transport/parsing failure (the uniform `fetch_api`
  contract).
* Python dicts that the code builds by insertion are modelled as association
  lists (`List (String × _)`), preserving insertion order; `getVal`/`setVal`
  mirror dict lookup and dict assignment (update in place, append if new).
* Fallible code returns `Option`/`Except`: `recommend_crop` returns `none`
  where Python raises `ValueError` on an empty mapping, and
  `get_climate_data` returns an `Except` whose error carries what the
  Python error dict's message interpolates (month, search depth, year).
-/

namespace Plant

/-- Dict lookup on an insertion-ordered association list
(Python `d[k]` / `k in d`, first occurrence wins). -/
def getVal {α : Type} : List (String × α) → String → Option α
  | [], _ => none
  | p :: t, k => if p.1 = k then some p.2 else getVal t k

/-- Dict assignment `d[k] = v` on an insertion-ordered association list:
update in place if the key is present, append otherwise. -/
def setVal {α : Type} : List (String × α) → String → α → List (String × α)
  | [], k, v => [(k, v)]
  | p :: t, k, v => if p.1 = k then (k, v) :: t else p :: setVal t k v

/-! ## Fitness scorer (`plant_fitness`, `recommend_crop`) -/

/-- The six observed scalar readings scored by `plant_fitness`
(`sensor['T']`, `['H']`, `['P']`, `['T_avg']`, `['AP']`, `['pH']`). -/
structure SensorVector where
  T : ℝ
  H : ℝ
  P : ℝ
  T_avg : ℝ
  AP : ℝ
  pH : ℝ

/-- A crop's optimal profile as built by `compute_optimal_conditions`
(`'T_opt'`, `'H_opt'`, `'pH_opt'`, `'AP_opt'`). -/
structure OptimalProfile where
  T_opt : ℝ
  H_opt : ℝ
  pH_opt : ℝ
  AP_opt : ℝ

/-- The `sigmas` mapping (`'sigma_T'`, ..., `'sigma_pH'`). -/
structure Sigmas where
  sigma_T : ℝ
  sigma_H : ℝ
  sigma_P : ℝ
  sigma_Tavg : ℝ
  sigma_AP : ℝ
  sigma_pH : ℝ

/-- The `weights` mapping (`'w_T'`, ..., `'w_pH'`). -/
structure Weights where
  w_T : ℝ
  w_H : ℝ
  w_P : ℝ
  w_Tavg : ℝ
  w_AP : ℝ
  w_pH : ℝ

/-- Embedding of `plant_fitness` (Full.py lines 244-263): a weighted
multivariate Gaussian kernel, with the pressure optimum the fixed constant
`1013` and the average-temperature optimum reusing `T_opt`. -/
noncomputable def plant_fitness (sensor : SensorVector) (optimal : OptimalProfile)
    (sigmas : Sigmas) (weights : Weights) : ℝ :=
  let T_opt := optimal.T_opt
  let H_opt := optimal.H_opt
  let pH_opt := optimal.pH_opt
  let AP_opt := optimal.AP_opt
  let P_opt : ℝ := 1013
  let T_avg_opt := T_opt
  let diff_T := (sensor.T - T_opt) ^ 2 / (2 * sigmas.sigma_T ^ 2)
  let diff_H := (sensor.H - H_opt) ^ 2 / (2 * sigmas.sigma_H ^ 2)
  let diff_P := (sensor.P - P_opt) ^ 2 / (2 * sigmas.sigma_P ^ 2)
  let diff_Tavg := (sensor.T_avg - T_avg_opt) ^ 2 / (2 * sigmas.sigma_Tavg ^ 2)
  let diff_AP := (sensor.AP - AP_opt) ^ 2 / (2 * sigmas.sigma_AP ^ 2)
  let diff_pH := (sensor.pH - pH_opt) ^ 2 / (2 * sigmas.sigma_pH ^ 2)
  let exponent := weights.w_T * diff_T + weights.w_H * diff_H +
    weights.w_P * diff_P + weights.w_Tavg * diff_Tavg +
    weights.w_AP * diff_AP + weights.w_pH * diff_pH
  Real.exp (-exponent)

/-- The fixed `sigmas` of the program (Full.py lines 508-515). -/
noncomputable def default_sigmas : Sigmas := ⟨2.0, 10.0, 10.0, 2.0, 20.0, 0.5⟩

/-- The fixed `weights` of the program (Full.py lines 516-523). -/
noncomputable def default_weights : Weights := ⟨0.35, 0.30, 0.05, 0.15, 0.10, 0.05⟩

/-- One comparison step of Python's `max(crop_fitness, key=crop_fitness.get)`:
the running best is replaced only when the candidate's score is strictly
greater, so on ties the earlier element is kept. -/
noncomputable def maxStep (b p : String × ℝ) : String × ℝ :=
  if b.2 < p.2 then p else b

/-- Embedding of `recommend_crop` (Full.py lines 305-309): score every crop,
take the key of maximum score (first on ties, as Python's `max` over the
dict's insertion order), and return it with its score and the full score
mapping.  `none` models the `ValueError` Python raises when
`optimal_conditions` is empty. -/
noncomputable def recommend_crop (sensor_data : SensorVector)
    (optimal_conditions : List (String × OptimalProfile))
    (sigmas : Sigmas) (weights : Weights) :
    Option (String × ℝ × List (String × ℝ)) :=
  let crop_fitness := optimal_conditions.map
    (fun p => (p.1, plant_fitness sensor_data p.2 sigmas weights))
  match crop_fitness with
  | [] => none
  | c :: rest =>
    let best := List.foldl maxStep c rest
    match getVal crop_fitness best.1 with
    | some sc => some (best.1, sc, crop_fitness)
    | none => none

/-! ## Climate resolver (`get_climate_data`, `get_alternative_precipitation`) -/

/-- `calendar.isleap` as used by `calendar.monthrange`. -/
def isLeap (y : ℤ) : Bool :=
  y % 4 == 0 && (y % 100 != 0 || y % 400 == 0)

/-- Last day of the month, `calendar.monthrange(year, month)[1]`. -/
def monthLastDay (y m : ℤ) : ℤ :=
  if m = 2 then (if isLeap y then 29 else 28)
  else if m = 4 ∨ m = 6 ∨ m = 9 ∨ m = 11 then 30
  else 31

/-- Left-pad a number with zeros to the given width. -/
def padNum (width n : ℕ) : String :=
  let s := toString n
  String.mk (List.replicate (width - s.length) '0') ++ s

/-- `datetime(year, month, 1).strftime("%Y%m%d")`. -/
def startDate (y m : ℤ) : String :=
  padNum 4 y.toNat ++ padNum 2 m.toNat ++ "01"

/-- `datetime(year, month, last_day).strftime("%Y%m%d")`. -/
def endDate (y m : ℤ) : String :=
  padNum 4 y.toNat ++ padNum 2 m.toNat ++ padNum 2 (monthLastDay y m).toNat

/-- The date reformatting of `get_alternative_precipitation`:
`f"{d[:4]}-{d[4:6]}-{d[6:]}"`, turning `YYYYMMDD` into `YYYY-MM-DD`. -/
def reformatDate (d : String) : String :=
  d.take 4 ++ "-" ++ (d.drop 4).take 2 ++ "-" ++ d.drop 6

/-- Embedding of `get_alternative_precipitation` (Full.py lines 34-51).
The Open-Meteo provider is the oracle `altP`, keyed by the reformatted
start/end dates; `some vs` models a response carrying the
`daily.precipitation_sum` list `vs`, `none` models a failed fetch or a
response without that key.  The result is the sum of the list when it is
non-empty, otherwise the `"No data"` marker (modelled as `none`). -/
def get_alternative_precipitation (altP : String → String → Option (List ℚ))
    (start_date end_date : String) : Option ℚ :=
  let start_date_alt := reformatDate start_date
  let end_date_alt := reformatDate end_date
  match altP start_date_alt end_date_alt with
  | some precip_values =>
      if precip_values ≠ [] then some precip_values.sum else none
  | none => none

/-- The per-day parameter block of a NASA POWER response:
the values of `properties.parameter.T2M` and `properties.parameter.PRECTOT`. -/
structure ClimateParams where
  t2m : List ℚ
  prectot : List ℚ

/-- A successful climate record: the `Date Range` string, and the
`Average Temperature (T2M)` / `Total Precipitation (PRECTOT)` fields, where
`none` models the `"No data"` marker. -/
structure ClimateSuccess where
  dateRange : String
  avgT2M : Option ℚ
  totalPrecip : Option ℚ
deriving DecidableEq

/-- The data interpolated into the error dict
`{"Error": f"No climate data for month {month} in past {max_years_back} years from {year}."}`. -/
structure ClimateError where
  month : ℤ
  depth : ℕ
  fromYear : ℤ
deriving DecidableEq

/-- One attempt's processing of a NASA POWER parameter block
(the body of `get_climate_data`'s loop, Full.py lines 81-90): filter the
`-999.0` sentinels, average the surviving temperatures, sum the surviving
precipitation readings, falling back to `get_alternative_precipitation`
over the same window when none survive.  Returns
(`avg_t2m`, `total_prectot`), with `none` for `"No data"`. -/
def climateAttempt (altP : String → String → Option (List ℚ))
    (month y : ℤ) (p : ClimateParams) : Option ℚ × Option ℚ :=
  let start_date := startDate y month
  let end_date := endDate y month
  let valid_t2m := p.t2m.filter (fun v => decide (v ≠ -999))
  let valid_prectot := p.prectot.filter (fun v => decide (v ≠ -999))
  let avg_t2m : Option ℚ :=
    if valid_t2m ≠ [] then some (valid_t2m.sum / (valid_t2m.length : ℚ))
    else none
  let total_prectot : Option ℚ :=
    if valid_prectot ≠ [] then some valid_prectot.sum
    else get_alternative_precipitation altP start_date end_date
  (avg_t2m, total_prectot)

/-- The year-walking loop of `get_climate_data` (Full.py lines 62-98),
recursing on the remaining attempt budget.  `fetch` is the NASA POWER
oracle keyed by candidate year (`none` models a failed request or a
response without `properties.parameter`).  Besides the loop's outcome it
returns the list of candidate years actually fetched (newest first), which
instruments the number of primary-provider fetch attempts. -/
def climateLoop (fetch : ℤ → Option ClimateParams)
    (altP : String → String → Option (List ℚ)) (month : ℤ) :
    ℕ → ℤ → Option ClimateSuccess × List ℤ
  | 0, _ => (none, [])
  | n + 1, adjusted_year =>
    match fetch adjusted_year with
    | some params =>
      let r := climateAttempt altP month adjusted_year params
      if r.1.isSome ∨ r.2.isSome then
        (some ⟨startDate adjusted_year month ++ " to " ++ endDate adjusted_year month,
          r.1, r.2⟩, [adjusted_year])
      else
        let rec' := climateLoop fetch altP month n (adjusted_year - 1)
        (rec'.1, adjusted_year :: rec'.2)
    | none =>
      let rec' := climateLoop fetch altP month n (adjusted_year - 1)
      (rec'.1, adjusted_year :: rec'.2)

/-- The future-date normalization loop at the top of `get_climate_data`
(Full.py lines 57-60): decrement the year while the requested (month, year)
is strictly in the future relative to (current_month, current_year). -/
def adjustYear (current_year current_month month : ℤ) : ℤ → ℤ :=
  fun year =>
    if h : year > current_year ∨ (year = current_year ∧ month > current_month) then
      adjustYear current_year current_month month (year - 1)
    else year
termination_by year => (year - current_year + 1).toNat
decreasing_by omega

/-- Embedding of `get_climate_data` (Full.py lines 53-99): normalize a
future date backward, then walk candidate years newest-first within the
attempt budget; `Except.error` carries what the error message interpolates
(the requested month, the search depth, and the originally requested
year). -/
def get_climate_data (current_year current_month : ℤ)
    (fetch : ℤ → Option ClimateParams)
    (altP : String → String → Option (List ℚ))
    (month year : ℤ) (max_years_back : ℕ) :
    Except ClimateError ClimateSuccess :=
  let adjusted_year := adjustYear current_year current_month month year
  match (climateLoop fetch altP month max_years_back adjusted_year).1 with
  | some record => Except.ok record
  | none => Except.error ⟨month, max_years_back, year⟩

/-! ## Report aggregator (`get_soil_data`, `get_location_info`) -/

/-- A field value inside a report section: a number, a string (such as the
`"No data"` marker or a location label), or Python's `None`. -/
inductive Val where
  | num (q : ℚ)
  | str (s : String)
  | missing
deriving DecidableEq

/-- A report section: either a mapping of field to value or a plain string
placeholder. -/
inductive Sect where
  | table (fields : List (String × Val))
  | text (msg : String)
deriving DecidableEq

/-- `.get(k, "No data")`: a number when present, the `"No data"` string
otherwise. -/
def numOrNoData (v : Option ℚ) : Val :=
  match v with
  | some q => Val.num q
  | none => Val.str "No data"

/-- A value that is a number or Python `None` (soil properties). -/
def optVal (v : Option ℚ) : Val :=
  match v with
  | some q => Val.num q
  | none => Val.missing

/-- The seven SoilGrids properties queried by `get_soil_data`. -/
def soil_properties : List String :=
  ["phh2o", "soc", "clay", "silt", "sand", "cec", "cfvo"]

/-- Embedding of `get_soil_data` (Full.py lines 111-128): one fetch per
property; each entry is the response's mean value, or `None` when the fetch
fails or the value is absent.  `soilFetch` is the per-property oracle. -/
def get_soil_data (soilFetch : String → Option ℚ) : List (String × Option ℚ) :=
  soil_properties.map (fun prop => (prop, soilFetch prop))

/-- The `main` block of an OpenWeather response. -/
structure WeatherMain where
  temp : Option ℚ
  humidity : Option ℚ
  pressure : Option ℚ

/-- An OpenWeather response: an optional `name` label and an optional
`main` block (`"main" in weather_response`). -/
structure WeatherResp where
  name : Option String
  main : Option WeatherMain

/-- Embedding of `get_location_info` (Full.py lines 136-158): build the
four-section report.  `weather` models the `get_weather_data` response,
`terrain` models the `get_terrain_data` response's `results` list (each
entry an optional elevation), and `none` models a failed fetch. -/
def get_location_info (current_year current_month : ℤ)
    (fetch : ℤ → Option ClimateParams)
    (altP : String → String → Option (List ℚ))
    (weather : Option WeatherResp)
    (soilFetch : String → Option ℚ)
    (terrain : Option (List (Option ℚ)))
    (month year : ℤ) (max_years_back : ℕ) : List (String × Sect) :=
  let climate := get_climate_data current_year current_month fetch altP month year max_years_back
  let climateSection : Sect :=
    match climate with
    | Except.ok record =>
      Sect.table [("Date Range", Val.str record.dateRange),
        ("Average Temperature (T2M)", numOrNoData record.avgT2M),
        ("Total Precipitation (PRECTOT)", numOrNoData record.totalPrecip)]
    | Except.error e =>
      Sect.table [("Error", Val.str ("No climate data for month " ++ toString e.month ++
        " in past " ++ toString e.depth ++ " years from " ++ toString e.fromYear ++ "."))]
  let weatherSection : Sect :=
    match weather with
    | some resp =>
      match resp.main with
      | some m =>
        Sect.table [("Location", Val.str (resp.name.getD "Unknown")),
          ("Temperature", numOrNoData m.temp),
          ("Humidity", numOrNoData m.humidity),
          ("Pressure", numOrNoData m.pressure)]
      | none => Sect.text "No weather data retrieved."
    | none => Sect.text "No weather data retrieved."
  let soil_response := get_soil_data soilFetch
  let soilSection : Sect :=
    if soil_response.isEmpty then Sect.text "No soil data retrieved."
    else Sect.table (soil_response.map (fun p => (p.1, optVal p.2)))
  let elevationSection : Sect :=
    match terrain with
    | some (elevation :: _) => Sect.table [("Elevation (meters)", numOrNoData elevation)]
    | some [] => Sect.text "No elevation data retrieved."
    | none => Sect.text "No elevation data retrieved."
  [("Climate Data", climateSection),
   ("Weather Data", weatherSection),
   ("Soil Data (Depth 0-5cm)", soilSection),
   ("Elevation Data", elevationSection)]

/-! ## CSV persistence (`export_report_to_csv`, `read_report_from_csv`)

Claim C8 restricts attention to reports whose sections are mappings from
string keys to values that are strings or `None`; `RSect` is the report
section type at that granularity (with the scalar-section shape kept so the
reader's scalar branch is modelled too).  On such values the source's
`str(value)` coercion is the identity on strings, and `None` is serialized
as the empty string for table rows (`'' if value is None else str(value)`)
and as `"None"` for scalar rows (`str(data)`). -/

/-- A report section as seen by the CSV round trip: a mapping of keys to
string-or-`None` values, or a scalar string-or-`None`. -/
inductive RSect where
  | table (fields : List (String × Option String))
  | scalar (v : Option String)
deriving DecidableEq

/-- The table-row value coercion `'' if value is None else str(value)`. -/
def encodeVal (v : Option String) : String :=
  match v with
  | none => ""
  | some s => s

/-- The read-side coercion `value if value else None` (empty string is
falsy, so it is reconstituted as `None`). -/
def decodeVal (value : String) : Option String :=
  if value = "" then none else some value

/-- Embedding of `export_report_to_csv` (Full.py lines 160-179): the header
row followed by one `[section, key, value]` row per table field and one
`[section, '', str(data)]` row per scalar section. -/
def export_report_to_csv (report : List (String × RSect)) : List (List String) :=
  ["Section", "Key", "Value"] ::
    report.flatMap (fun p =>
      match p.2 with
      | RSect.table fields =>
          fields.map (fun f => [p.1, f.1, encodeVal f.2])
      | RSect.scalar v =>
          [[p.1, "", match v with | none => "None" | some s => s]])

/-- The row-processing loop of `read_report_from_csv` (Full.py lines
187-194), folding rows into the report dict.  A malformed row (the
three-way unpack fails) or a `report[section][key]` assignment into a
scalar section raises in Python; the surrounding `except` swallows the
exception and the report built so far is returned, which the early-return
branches model. -/
def readRows : List (List String) → List (String × RSect) → List (String × RSect)
  | [], report => report
  | row :: rest, report =>
    match row with
    | [sec, key, value] =>
      let report1 :=
        if (getVal report sec).isSome then report
        else report ++ [(sec, RSect.table [])]
      if key ≠ "" then
        match getVal report1 sec with
        | some (RSect.table fields) =>
            readRows rest (setVal report1 sec (RSect.table (setVal fields key (decodeVal value))))
        | _ => report1
      else
        readRows rest (setVal report1 sec (RSect.scalar (decodeVal value)))
    | _ => report

/-- Embedding of `read_report_from_csv` (Full.py lines 181-199): skip the
header row, then fold the remaining rows into a fresh report.  An input
without even a header yields the empty report (the `StopIteration` from
`next(reader)` is swallowed by the generic `except`). -/
def read_report_from_csv (rows : List (List String)) : List (String × RSect) :=
  match rows with
  | [] => []
  | _ :: rest => readRows rest []

/-- A concrete secondary-provider oracle used by witnesses: data only for
the window starting 2023-06-01. -/
def exampleAlt : String → String → Option (List ℚ) :=
  fun s _ => if s = "2023-06-01" then some [1, 2] else none

/-- A concrete NASA POWER parameter block used by witnesses: one usable
temperature, all precipitation readings sentinel. -/
def exampleParams : ClimateParams := ⟨[20, -999], [-999, -999]⟩

/-- Whether a section contributes at least one CSV row on export (an empty
table section writes no rows and so vanishes on re-reading). -/
def keepSect (p : String × RSect) : Bool :=
  match p.2 with
  | RSect.table fields => !fields.isEmpty
  | RSect.scalar _ => true

/-- A concrete two-crop profile mapping used by witnesses. -/
noncomputable def exampleProfiles : List (String × OptimalProfile) :=
  [("wheat", ⟨20, 50, 7, 100⟩), ("rice", ⟨25, 80, 6, 200⟩)]

/-- A concrete fully populated sensor vector used by witnesses. -/
noncomputable def exampleSensor : SensorVector := ⟨20, 50, 1013, 20, 100, 7⟩

/-! ## Theorems -/

/-- Closed form of the normalization loop: with `m ≤ cm` the loop stops at
`min y cy`, otherwise at `min y (cy - 1)`. -/
lemma adjustYear_closed (cy cm m : ℤ) (y : ℤ) :
    adjustYear cy cm m y = if m ≤ cm then min y cy else min y (cy - 1) := by
  have H : ∀ n : ℕ, ∀ y : ℤ, (y - cy + 1).toNat ≤ n →
      adjustYear cy cm m y = if m ≤ cm then min y cy else min y (cy - 1) := by
    intro n
    induction n with
    | zero =>
      intro y hy
      rw [adjustYear, dif_neg (by omega)]
      rcases le_or_lt m cm with hm | hm
      · rw [if_pos hm, min_eq_left (by omega)]
      · rw [if_neg (by omega), min_eq_left (by omega)]
    | succ n ih =>
      intro y hy
      rw [adjustYear]
      by_cases hc : y > cy ∨ (y = cy ∧ m > cm)
      · rw [dif_pos hc, ih (y - 1) (by omega)]
        rcases le_or_lt m cm with hm | hm
        · rw [if_pos hm, if_pos hm, min_eq_right (by omega), min_eq_right (by omega)]
        · rw [if_neg (by omega), if_neg (by omega),
            min_eq_right (by omega), min_eq_right (by omega)]
      · rw [dif_neg hc]
        rcases le_or_lt m cm with hm | hm
        · rw [if_pos hm, min_eq_left (by omega)]
        · rw [if_neg (by omega), min_eq_left (by omega)]
  exact H (y - cy + 1).toNat y le_rfl

/-- C4: `get_climate_data`'s normalized starting year is the largest
`z ≤ year` with `z < current_year`, or `z = current_year` and
`month ≤ current_month`; a future request normalizes to `current_year` when
`month ≤ current_month` and to `current_year - 1` otherwise, and a
non-future request is left unchanged. -/
theorem adjustYear_normalizes (cy cm m y : ℤ) (h1 : 1 ≤ m) (h2 : m ≤ 12) :
    adjustYear cy cm m y ≤ y ∧
    (adjustYear cy cm m y < cy ∨ (adjustYear cy cm m y = cy ∧ m ≤ cm)) ∧
    (∀ z : ℤ, z ≤ y → (z < cy ∨ (z = cy ∧ m ≤ cm)) → z ≤ adjustYear cy cm m y) ∧
    ((y > cy ∨ (y = cy ∧ m > cm)) →
      adjustYear cy cm m y = if m ≤ cm then cy else cy - 1) ∧
    (¬(y > cy ∨ (y = cy ∧ m > cm)) → adjustYear cy cm m y = y) := by
  rw [adjustYear_closed]
  rcases le_or_lt m cm with hm | hm
  · simp only [if_pos hm]
    exact ⟨by omega, by omega, fun z hz hcond => by omega,
      fun hf => by omega, fun hnf => by omega⟩
  · simp only [if_neg (not_le.mpr hm)]
    exact ⟨by omega, by omega, fun z hz hcond => by omega,
      fun hf => by omega, fun hnf => by omega⟩

/-- Witness for C4: December 2030 requested in October 2025 normalizes to
2024 (December 2025 would still be in the future). -/
theorem adjustYear_normalizes_witness :
    (1 : ℤ) ≤ 12 ∧
    (adjustYear 2025 10 12 2030 ≤ 2030 ∧
    (adjustYear 2025 10 12 2030 < 2025 ∨
      (adjustYear 2025 10 12 2030 = 2025 ∧ (12 : ℤ) ≤ 10)) ∧
    (∀ z : ℤ, z ≤ 2030 → (z < 2025 ∨ (z = 2025 ∧ (12 : ℤ) ≤ 10)) →
      z ≤ adjustYear 2025 10 12 2030) ∧
    (((2030 : ℤ) > 2025 ∨ ((2030 : ℤ) = 2025 ∧ (10 : ℤ) < 12)) →
      adjustYear 2025 10 12 2030 = if (12 : ℤ) ≤ 10 then 2025 else 2025 - 1) ∧
    (¬((2030 : ℤ) > 2025 ∨ ((2030 : ℤ) = 2025 ∧ (10 : ℤ) < 12)) →
      adjustYear 2025 10 12 2030 = 2030)) :=
  ⟨by decide, adjustYear_normalizes 2025 10 12 2030 (by decide) (by decide)⟩

/-- The year-walk makes at most `n` fetches, makes exactly `n` when it
fails, and any success record has a usable temperature or precipitation. -/
lemma climateLoop_spec (fetch : ℤ → Option ClimateParams)
    (altP : String → String → Option (List ℚ)) (month : ℤ) :
    ∀ (n : ℕ) (y : ℤ),
      (climateLoop fetch altP month n y).2.length ≤ n ∧
      ((climateLoop fetch altP month n y).1 = none →
        (climateLoop fetch altP month n y).2.length = n) ∧
      (∀ r, (climateLoop fetch altP month n y).1 = some r →
        r.avgT2M.isSome ∨ r.totalPrecip.isSome) := by
  intro n
  induction n with
  | zero =>
    intro y
    simp [climateLoop]
  | succ n ih =>
    intro y
    obtain ⟨ha, hb, hc⟩ := ih (y - 1)
    simp only [climateLoop]
    split
    · split
      · rename_i params hcond
        refine ⟨by simp, by simp, fun r hrec => ?_⟩
        simp only at hrec
        cases hrec
        simpa using hcond
      · refine ⟨by simpa using Nat.succ_le_succ ha, fun hn => ?_, fun r hrec => ?_⟩
        · simpa using hb (by simpa using hn)
        · exact hc r (by simpa using hrec)
    · refine ⟨by simpa using Nat.succ_le_succ ha, fun hn => ?_, fun r hrec => ?_⟩
      · simpa using hb (by simpa using hn)
      · exact hc r (by simpa using hrec)

/-- C5: `get_climate_data` performs at most `max_years_back` primary-provider
fetch attempts and always terminates, returning either a success record with
a usable temperature or precipitation value, or — exactly after exhausting
the attempt budget — the error record naming the requested month, the
search depth and the requested year.  (Termination is the totality of the
definition.) -/
theorem get_climate_data_bounded (cy cm : ℤ) (fetch : ℤ → Option ClimateParams)
    (altP : String → String → Option (List ℚ)) (m y : ℤ) (mb : ℕ) :
    (climateLoop fetch altP m mb (adjustYear cy cm m y)).2.length ≤ mb ∧
    ((∃ r, get_climate_data cy cm fetch altP m y mb = Except.ok r ∧
        (r.avgT2M.isSome ∨ r.totalPrecip.isSome)) ∨
      (get_climate_data cy cm fetch altP m y mb = Except.error ⟨m, mb, y⟩ ∧
        (climateLoop fetch altP m mb (adjustYear cy cm m y)).2.length = mb)) := by
  obtain ⟨ha, hb, hc⟩ := climateLoop_spec fetch altP m mb (adjustYear cy cm m y)
  refine ⟨ha, ?_⟩
  cases hres : (climateLoop fetch altP m mb (adjustYear cy cm m y)).1 with
  | some r =>
    left
    exact ⟨r, by simp [get_climate_data, hres], hc r hres⟩
  | none =>
    right
    exact ⟨by simp [get_climate_data, hres], hb hres⟩

/-- C6: when the primary provider's precipitation series is entirely
sentinel-valued after filtering, the attempt's precipitation value is the
secondary provider's sum over the identical window (the same start/end dates
reformatted from `YYYYMMDD` to `YYYY-MM-DD`), or the `"No data"` marker
(`none`) when the secondary provider returns nothing or an empty series;
the primary's sentinel-filtered empty sum is never used. -/
theorem climate_precip_fallback (altP : String → String → Option (List ℚ))
    (m y : ℤ) (p : ClimateParams)
    (hps : p.prectot.filter (fun v => decide (v ≠ -999)) = []) :
    (climateAttempt altP m y p).2 =
      get_alternative_precipitation altP (startDate y m) (endDate y m) ∧
    (∀ vs, altP (reformatDate (startDate y m)) (reformatDate (endDate y m)) = some vs →
      vs ≠ [] → (climateAttempt altP m y p).2 = some vs.sum) ∧
    (altP (reformatDate (startDate y m)) (reformatDate (endDate y m)) = none →
      (climateAttempt altP m y p).2 = none) ∧
    (altP (reformatDate (startDate y m)) (reformatDate (endDate y m)) = some [] →
      (climateAttempt altP m y p).2 = none) := by
  have h2 : (climateAttempt altP m y p).2 =
      get_alternative_precipitation altP (startDate y m) (endDate y m) := by
    simp only [climateAttempt]
    rw [hps]
    simp
  refine ⟨h2, fun vs hvs hne => ?_, fun hnone => ?_, fun hempty => ?_⟩
  · rw [h2]
    simp [get_alternative_precipitation, hvs, hne]
  · rw [h2]
    simp [get_alternative_precipitation, hnone]
  · rw [h2]
    simp [get_alternative_precipitation, hempty]


/-- C1: for every fully populated sensor vector, optimal profile, and
sigmas/weights mappings with nonzero sigmas, `plant_fitness` equals the
weighted Gaussian
`exp(-(w_T*(s.T-o.T_opt)^2/(2*sigma_T^2) + ... + w_pH*(s.pH-o.pH_opt)^2/(2*sigma_pH^2)))`,
where the pressure optimum is the fixed constant `1013` and the
average-temperature optimum is the same crop's `T_opt`. -/
theorem plant_fitness_formula (s : SensorVector) (o : OptimalProfile)
    (σ : Sigmas) (w : Weights)
    (hT : σ.sigma_T ≠ 0) (hH : σ.sigma_H ≠ 0) (hP : σ.sigma_P ≠ 0)
    (hTa : σ.sigma_Tavg ≠ 0) (hAP : σ.sigma_AP ≠ 0) (hpH : σ.sigma_pH ≠ 0) :
    plant_fitness s o σ w =
      Real.exp (-(w.w_T * (s.T - o.T_opt) ^ 2 / (2 * σ.sigma_T ^ 2) +
                  w.w_H * (s.H - o.H_opt) ^ 2 / (2 * σ.sigma_H ^ 2) +
                  w.w_P * (s.P - 1013) ^ 2 / (2 * σ.sigma_P ^ 2) +
                  w.w_Tavg * (s.T_avg - o.T_opt) ^ 2 / (2 * σ.sigma_Tavg ^ 2) +
                  w.w_AP * (s.AP - o.AP_opt) ^ 2 / (2 * σ.sigma_AP ^ 2) +
                  w.w_pH * (s.pH - o.pH_opt) ^ 2 / (2 * σ.sigma_pH ^ 2))) := by
  simp only [plant_fitness]
  congr 1
  ring

/-- Witness for C1 at a concrete input with all sigmas equal to `1`. -/
theorem plant_fitness_formula_witness :
    plant_fitness ⟨21, 60, 1010, 19, 120, 6⟩ ⟨20, 50, 7, 100⟩
        ⟨1, 1, 1, 1, 1, 1⟩ ⟨1, 1, 1, 1, 1, 1⟩ =
      Real.exp (-((1 : ℝ) * ((21 : ℝ) - 20) ^ 2 / (2 * (1 : ℝ) ^ 2) +
                  (1 : ℝ) * ((60 : ℝ) - 50) ^ 2 / (2 * (1 : ℝ) ^ 2) +
                  (1 : ℝ) * ((1010 : ℝ) - 1013) ^ 2 / (2 * (1 : ℝ) ^ 2) +
                  (1 : ℝ) * ((19 : ℝ) - 20) ^ 2 / (2 * (1 : ℝ) ^ 2) +
                  (1 : ℝ) * ((120 : ℝ) - 100) ^ 2 / (2 * (1 : ℝ) ^ 2) +
                  (1 : ℝ) * ((6 : ℝ) - 7) ^ 2 / (2 * (1 : ℝ) ^ 2))) :=
  plant_fitness_formula ⟨21, 60, 1010, 19, 120, 6⟩ ⟨20, 50, 7, 100⟩
    ⟨1, 1, 1, 1, 1, 1⟩ ⟨1, 1, 1, 1, 1, 1⟩
    one_ne_zero one_ne_zero one_ne_zero one_ne_zero one_ne_zero one_ne_zero

/-- C3: with the program's fixed sigmas and weights every score lies in
`(0, 1]`, the score is `1` when every observed dimension equals its optimum
(pressure compared to `1013`); and with `sigma_T = 2`, `w_T = 1` and all
other weights zero, the score is `1` exactly when `s.T = o.T_opt` and
strictly decreases as `|s.T - o.T_opt|` increases. -/
theorem plant_fitness_range_and_mono :
    (∀ (s : SensorVector) (o : OptimalProfile),
      0 < plant_fitness s o default_sigmas default_weights ∧
        plant_fitness s o default_sigmas default_weights ≤ 1) ∧
    (∀ (s : SensorVector) (o : OptimalProfile),
      s.T = o.T_opt → s.H = o.H_opt → s.P = 1013 → s.T_avg = o.T_opt →
      s.AP = o.AP_opt → s.pH = o.pH_opt →
        plant_fitness s o default_sigmas default_weights = 1) ∧
    (∀ (σ : Sigmas) (s : SensorVector) (o : OptimalProfile), σ.sigma_T = 2 →
      (plant_fitness s o σ ⟨1, 0, 0, 0, 0, 0⟩ = 1 ↔ s.T = o.T_opt)) ∧
    (∀ (σ : Sigmas) (s₁ s₂ : SensorVector) (o : OptimalProfile), σ.sigma_T = 2 →
      |s₁.T - o.T_opt| < |s₂.T - o.T_opt| →
        plant_fitness s₂ o σ ⟨1, 0, 0, 0, 0, 0⟩ <
          plant_fitness s₁ o σ ⟨1, 0, 0, 0, 0, 0⟩) := by
  refine ⟨fun s o => ⟨?_, ?_⟩, fun s o h1 h2 h3 h4 h5 h6 => ?_,
    fun σ s o hσ => ?_, fun σ s₁ s₂ o hσ hlt => ?_⟩
  · simp only [plant_fitness]
    exact Real.exp_pos _
  · simp only [plant_fitness, default_sigmas, default_weights]
    rw [Real.exp_le_one_iff, neg_nonpos]
    positivity
  · simp only [plant_fitness]
    rw [h1, h2, h3, h4, h5, h6]
    simp
  · simp only [plant_fitness, hσ]
    rw [Real.exp_eq_one_iff, neg_eq_zero]
    simp only [one_mul, zero_mul, add_zero]
    rw [div_eq_zero_iff]
    constructor
    · rintro (h | h)
      · exact sub_eq_zero.mp (pow_eq_zero_iff two_ne_zero |>.mp h)
      · norm_num at h
    · intro h
      left
      rw [h, sub_self]
      norm_num
  · simp only [plant_fitness, hσ]
    rw [Real.exp_lt_exp]
    rw [neg_lt_neg_iff]
    simp only [one_mul, zero_mul, add_zero]
    have habs : (s₁.T - o.T_opt) ^ 2 < (s₂.T - o.T_opt) ^ 2 := by
      rw [← sq_abs (s₁.T - o.T_opt), ← sq_abs (s₂.T - o.T_opt)]
      exact pow_lt_pow_left₀ hlt (abs_nonneg _) two_ne_zero
    gcongr

/-- Witness for C6: an all-sentinel precipitation series for June 2023 is
resolved through the secondary provider over the reformatted window. -/
theorem climate_precip_fallback_witness :
    exampleParams.prectot.filter (fun v => decide (v ≠ -999)) = [] ∧
    ((climateAttempt exampleAlt 6 2023 exampleParams).2 =
      get_alternative_precipitation exampleAlt (startDate 2023 6) (endDate 2023 6) ∧
    (∀ vs, exampleAlt (reformatDate (startDate 2023 6)) (reformatDate (endDate 2023 6)) = some vs →
      vs ≠ [] → (climateAttempt exampleAlt 6 2023 exampleParams).2 = some vs.sum) ∧
    (exampleAlt (reformatDate (startDate 2023 6)) (reformatDate (endDate 2023 6)) = none →
      (climateAttempt exampleAlt 6 2023 exampleParams).2 = none) ∧
    (exampleAlt (reformatDate (startDate 2023 6)) (reformatDate (endDate 2023 6)) = some [] →
      (climateAttempt exampleAlt 6 2023 exampleParams).2 = none)) :=
  ⟨by decide, climate_precip_fallback exampleAlt 6 2023 exampleParams (by decide)⟩

/-- C7: `get_location_info` always produces exactly the four section keys
`"Climate Data"`, `"Weather Data"`, `"Soil Data (Depth 0-5cm)"` and
`"Elevation Data"`, each present; each single source — weather, climate
(primary and secondary providers), soil, terrain — never affects the other
three sections, so any one source's failure changes only its own section,
and a failed weather fetch yields the weather placeholder string in its own
section only. -/
theorem get_location_info_sections (cy cm : ℤ) (fetch : ℤ → Option ClimateParams)
    (altP : String → String → Option (List ℚ)) (weather : Option WeatherResp)
    (soilFetch : String → Option ℚ) (terrain : Option (List (Option ℚ)))
    (m y : ℤ) (mb : ℕ) :
    (get_location_info cy cm fetch altP weather soilFetch terrain m y mb).map Prod.fst =
      ["Climate Data", "Weather Data", "Soil Data (Depth 0-5cm)", "Elevation Data"] ∧
    (getVal (get_location_info cy cm fetch altP weather soilFetch terrain m y mb)
      "Climate Data").isSome ∧
    (getVal (get_location_info cy cm fetch altP weather soilFetch terrain m y mb)
      "Weather Data").isSome ∧
    (getVal (get_location_info cy cm fetch altP weather soilFetch terrain m y mb)
      "Soil Data (Depth 0-5cm)").isSome ∧
    (getVal (get_location_info cy cm fetch altP weather soilFetch terrain m y mb)
      "Elevation Data").isSome ∧
    (∀ weather' : Option WeatherResp,
      getVal (get_location_info cy cm fetch altP weather' soilFetch terrain m y mb)
          "Climate Data" =
        getVal (get_location_info cy cm fetch altP weather soilFetch terrain m y mb)
          "Climate Data" ∧
      getVal (get_location_info cy cm fetch altP weather' soilFetch terrain m y mb)
          "Soil Data (Depth 0-5cm)" =
        getVal (get_location_info cy cm fetch altP weather soilFetch terrain m y mb)
          "Soil Data (Depth 0-5cm)" ∧
      getVal (get_location_info cy cm fetch altP weather' soilFetch terrain m y mb)
          "Elevation Data" =
        getVal (get_location_info cy cm fetch altP weather soilFetch terrain m y mb)
          "Elevation Data") ∧
    (∀ (fetch' : ℤ → Option ClimateParams)
        (altP' : String → String → Option (List ℚ)),
      getVal (get_location_info cy cm fetch' altP' weather soilFetch terrain m y mb)
          "Weather Data" =
        getVal (get_location_info cy cm fetch altP weather soilFetch terrain m y mb)
          "Weather Data" ∧
      getVal (get_location_info cy cm fetch' altP' weather soilFetch terrain m y mb)
          "Soil Data (Depth 0-5cm)" =
        getVal (get_location_info cy cm fetch altP weather soilFetch terrain m y mb)
          "Soil Data (Depth 0-5cm)" ∧
      getVal (get_location_info cy cm fetch' altP' weather soilFetch terrain m y mb)
          "Elevation Data" =
        getVal (get_location_info cy cm fetch altP weather soilFetch terrain m y mb)
          "Elevation Data") ∧
    (∀ soilFetch' : String → Option ℚ,
      getVal (get_location_info cy cm fetch altP weather soilFetch' terrain m y mb)
          "Climate Data" =
        getVal (get_location_info cy cm fetch altP weather soilFetch terrain m y mb)
          "Climate Data" ∧
      getVal (get_location_info cy cm fetch altP weather soilFetch' terrain m y mb)
          "Weather Data" =
        getVal (get_location_info cy cm fetch altP weather soilFetch terrain m y mb)
          "Weather Data" ∧
      getVal (get_location_info cy cm fetch altP weather soilFetch' terrain m y mb)
          "Elevation Data" =
        getVal (get_location_info cy cm fetch altP weather soilFetch terrain m y mb)
          "Elevation Data") ∧
    (∀ terrain' : Option (List (Option ℚ)),
      getVal (get_location_info cy cm fetch altP weather soilFetch terrain' m y mb)
          "Climate Data" =
        getVal (get_location_info cy cm fetch altP weather soilFetch terrain m y mb)
          "Climate Data" ∧
      getVal (get_location_info cy cm fetch altP weather soilFetch terrain' m y mb)
          "Weather Data" =
        getVal (get_location_info cy cm fetch altP weather soilFetch terrain m y mb)
          "Weather Data" ∧
      getVal (get_location_info cy cm fetch altP weather soilFetch terrain' m y mb)
          "Soil Data (Depth 0-5cm)" =
        getVal (get_location_info cy cm fetch altP weather soilFetch terrain m y mb)
          "Soil Data (Depth 0-5cm)") ∧
    (getVal (get_location_info cy cm fetch altP none soilFetch terrain m y mb)
        "Weather Data" =
      some (Sect.text "No weather data retrieved.")) :=
  ⟨rfl, rfl, rfl, rfl, rfl, fun _ => ⟨rfl, rfl, rfl⟩, fun _ _ => ⟨rfl, rfl, rfl⟩,
    fun _ => ⟨rfl, rfl, rfl⟩, fun _ => ⟨rfl, rfl, rfl⟩, rfl⟩

/-- C9: `get_soil_data` always returns exactly the seven property keys, so
it is never empty, the `"No soil data retrieved."` placeholder branch of
`get_location_info` is unreachable, and the soil section is always a
mapping. -/
theorem get_soil_data_never_empty (soilFetch : String → Option ℚ) :
    (get_soil_data soilFetch).map Prod.fst =
      ["phh2o", "soc", "clay", "silt", "sand", "cec", "cfvo"] ∧
    get_soil_data soilFetch ≠ [] ∧
    ∀ (cy cm : ℤ) (fetch : ℤ → Option ClimateParams)
      (altP : String → String → Option (List ℚ)) (weather : Option WeatherResp)
      (terrain : Option (List (Option ℚ))) (m y : ℤ) (mb : ℕ),
      getVal (get_location_info cy cm fetch altP weather soilFetch terrain m y mb)
          "Soil Data (Depth 0-5cm)" =
        some (Sect.table ((get_soil_data soilFetch).map (fun p => (p.1, optVal p.2)))) :=
  ⟨rfl, by simp [get_soil_data, soil_properties],
    fun _ _ _ _ _ _ _ _ _ => rfl⟩

/-- Witness for C3 at concrete inputs: matching sensor scores `1` and is
positive; a sensor `5` degrees off its optimum scores strictly less than a
matching one under the restricted configuration. -/
theorem plant_fitness_range_and_mono_witness :
    (0 < plant_fitness ⟨20, 50, 1013, 20, 100, 7⟩ ⟨20, 50, 7, 100⟩
        default_sigmas default_weights) ∧
    (plant_fitness ⟨20, 50, 1013, 20, 100, 7⟩ ⟨20, 50, 7, 100⟩
        default_sigmas default_weights = 1) ∧
    (plant_fitness ⟨25, 50, 1013, 20, 100, 7⟩ ⟨20, 50, 7, 100⟩
        ⟨2, 10, 10, 2, 20, 0.5⟩ ⟨1, 0, 0, 0, 0, 0⟩ <
      plant_fitness ⟨20, 50, 1013, 20, 100, 7⟩ ⟨20, 50, 7, 100⟩
        ⟨2, 10, 10, 2, 20, 0.5⟩ ⟨1, 0, 0, 0, 0, 0⟩) :=
  ⟨(plant_fitness_range_and_mono.1 ⟨20, 50, 1013, 20, 100, 7⟩ ⟨20, 50, 7, 100⟩).1,
   plant_fitness_range_and_mono.2.1 ⟨20, 50, 1013, 20, 100, 7⟩ ⟨20, 50, 7, 100⟩
     rfl rfl rfl rfl rfl rfl,
   plant_fitness_range_and_mono.2.2.2 ⟨2, 10, 10, 2, 20, 0.5⟩
     ⟨20, 50, 1013, 20, 100, 7⟩ ⟨25, 50, 1013, 20, 100, 7⟩ ⟨20, 50, 7, 100⟩
     rfl (by norm_num)⟩

/-- Dict lookup finds the stored value when the keys are distinct. -/
lemma getVal_eq_some_of_mem {α : Type} :
    ∀ {l : List (String × α)} {k : String} {v : α},
      (l.map Prod.fst).Nodup → (k, v) ∈ l → getVal l k = some v := by
  intro l
  induction l with
  | nil => intro k v _ hmem; cases hmem
  | cons p t ih =>
    intro k v hnd hmem
    rcases List.mem_cons.mp hmem with h | h
    · rw [← h]
      simp [getVal]
    · have hk : k ∈ t.map Prod.fst := List.mem_map.mpr ⟨(k, v), h, rfl⟩
      have hne : p.1 ≠ k := by
        intro he
        exact (List.nodup_cons.mp (by simpa using hnd)).1 (he ▸ hk)
      rw [getVal, if_neg hne]
      exact ih (List.nodup_cons.mp (by simpa using hnd)).2 h

/-- Dict lookup succeeds on any stored key. -/
lemma getVal_isSome_of_mem {α : Type} :
    ∀ {l : List (String × α)} {k : String} {v : α},
      (k, v) ∈ l → (getVal l k).isSome := by
  intro l
  induction l with
  | nil => intro k v hmem; cases hmem
  | cons p t ih =>
    intro k v hmem
    by_cases hk : p.1 = k
    · simp [getVal, hk]
    · rw [getVal, if_neg hk]
      rcases List.mem_cons.mp hmem with h | h
      · exact absurd (by rw [← h]) hk
      · exact ih h

/-- Python's `max` over a list of scored crops: the result bounds every
score, and the list decomposes so that everything before the result scores
strictly less — the result is the first maximum. -/
lemma foldl_maxStep_spec (l : List (String × ℝ)) :
    ∀ b : String × ℝ,
      (∀ q ∈ b :: l, q.2 ≤ (List.foldl maxStep b l).2) ∧
      ∃ l₁ l₂, b :: l = l₁ ++ (List.foldl maxStep b l) :: l₂ ∧
        ∀ q ∈ l₁, q.2 < (List.foldl maxStep b l).2 := by
  induction l with
  | nil =>
    intro b
    exact ⟨by simp, [], [], by simp, by simp⟩
  | cons p t ih =>
    intro b
    rw [List.foldl_cons]
    by_cases h : b.2 < p.2
    · have hs : maxStep b p = p := if_pos h
      rw [hs]
      obtain ⟨hbound, l₁, l₂, hdec, hlt⟩ := ih p
      have hple : p.2 ≤ (t.foldl maxStep p).2 := hbound p (by simp)
      refine ⟨?_, b :: l₁, l₂, ?_, ?_⟩
      · intro q hq
        rcases List.mem_cons.mp hq with rfl | hq'
        · exact le_trans (le_of_lt h) hple
        · exact hbound q hq'
      · rw [List.cons_append, ← hdec]
      · intro q hq
        rcases List.mem_cons.mp hq with rfl | hq'
        · exact lt_of_lt_of_le h hple
        · exact hlt q hq'
    · have hs : maxStep b p = b := if_neg h
      rw [hs]
      obtain ⟨hbound, l₁, l₂, hdec, hlt⟩ := ih b
      set r := t.foldl maxStep b with hr
      have hble : b.2 ≤ r.2 := hbound b (by simp)
      refine ⟨?_, ?_⟩
      · intro q hq
        rcases List.mem_cons.mp hq with rfl | hq'
        · exact hble
        · rcases List.mem_cons.mp hq' with rfl | hq''
          · exact le_trans (not_lt.mp h) hble
          · exact hbound q (List.mem_cons.mpr (Or.inr hq''))
      · cases l₁ with
        | nil =>
          obtain ⟨hb, ht⟩ : b = r ∧ t = l₂ := by simpa using hdec
          refine ⟨[], p :: t, ?_, by simp⟩
          rw [List.nil_append, ← hb]
        | cons x l₁' =>
          obtain ⟨hb, ht⟩ : b = x ∧ t = l₁' ++ r :: l₂ := by simpa using hdec
          have hbf : b.2 < r.2 := by
            have hxlt := hlt x (List.mem_cons_self x l₁')
            rw [← hb] at hxlt
            exact hxlt
          refine ⟨b :: p :: l₁', l₂, ?_, ?_⟩
          · rw [ht]
            simp
          · intro q hq
            rcases List.mem_cons.mp hq with rfl | hq'
            · exact hbf
            · rcases List.mem_cons.mp hq' with rfl | hq''
              · exact lt_of_le_of_lt (not_lt.mp h) hbf
              · exact hlt q (List.mem_cons.mpr (Or.inr hq''))

/-- Scoring keeps the crop keys. -/
lemma map_fst_scores (sensor : SensorVector) (σ : Sigmas) (w : Weights)
    (oc : List (String × OptimalProfile)) :
    ((oc.map fun p => (p.1, plant_fitness sensor p.2 σ w)).map Prod.fst) =
      oc.map Prod.fst := by
  induction oc with
  | nil => rfl
  | cons o ot ih => simp [ih]

/-- On any non-empty profile mapping `recommend_crop` yields a result. -/
lemma recommend_crop_total (sensor : SensorVector) (σ : Sigmas) (w : Weights)
    (oc : List (String × OptimalProfile)) (hne : oc ≠ []) :
    ∃ r, recommend_crop sensor oc σ w = some r := by
  cases oc with
  | nil => exact absurd rfl hne
  | cons o ot =>
    obtain ⟨hbound, l₁, l₂, hdec, hlt⟩ :=
      foldl_maxStep_spec (ot.map fun p => (p.1, plant_fitness sensor p.2 σ w))
        (o.1, plant_fitness sensor o.2 σ w)
    have hmem : (ot.map fun p => (p.1, plant_fitness sensor p.2 σ w)).foldl maxStep
        (o.1, plant_fitness sensor o.2 σ w) ∈
        (o.1, plant_fitness sensor o.2 σ w) ::
          (ot.map fun p => (p.1, plant_fitness sensor p.2 σ w)) := by
      rw [hdec]
      exact List.mem_append.mpr (Or.inr (List.mem_cons_self _ _))
    have hsome : (getVal ((o.1, plant_fitness sensor o.2 σ w) ::
        (ot.map fun p => (p.1, plant_fitness sensor p.2 σ w)))
        ((ot.map fun p => (p.1, plant_fitness sensor p.2 σ w)).foldl maxStep
          (o.1, plant_fitness sensor o.2 σ w)).1).isSome :=
      getVal_isSome_of_mem
        (show ((((ot.map fun p => (p.1, plant_fitness sensor p.2 σ w)).foldl maxStep
            (o.1, plant_fitness sensor o.2 σ w)).1,
          ((ot.map fun p => (p.1, plant_fitness sensor p.2 σ w)).foldl maxStep
            (o.1, plant_fitness sensor o.2 σ w)).2) ∈
          (o.1, plant_fitness sensor o.2 σ w) ::
            (ot.map fun p => (p.1, plant_fitness sensor p.2 σ w))) by simpa using hmem)
    obtain ⟨sc, hsc⟩ := Option.isSome_iff_exists.mp hsome
    refine ⟨(((ot.map fun p => (p.1, plant_fitness sensor p.2 σ w)).foldl maxStep
        (o.1, plant_fitness sensor o.2 σ w)).1, sc,
      (o.1, plant_fitness sensor o.2 σ w) ::
        (ot.map fun p => (p.1, plant_fitness sensor p.2 σ w))), ?_⟩
    simp only [recommend_crop, List.map_cons]
    rw [hsc]

/-- C2: on a non-empty profile mapping with distinct crop names,
`recommend_crop` returns `(best, score, score_mapping)` where the score
mapping assigns each crop its `plant_fitness` score in the profile
mapping's iteration order, the best score is the mapping's entry for the
best crop, bounds every crop's score, and the best crop is the first crop
attaining it.  Determinism across runs is the definitional purity of the
function. -/
theorem recommend_crop_spec (sensor : SensorVector) (σ : Sigmas) (w : Weights)
    (oc : List (String × OptimalProfile)) (hne : oc ≠ [])
    (hnd : (oc.map Prod.fst).Nodup) :
    ∃ best score,
      recommend_crop sensor oc σ w =
        some (best, score, oc.map fun p => (p.1, plant_fitness sensor p.2 σ w)) ∧
      getVal (oc.map fun p => (p.1, plant_fitness sensor p.2 σ w)) best = some score ∧
      (∀ q ∈ oc.map fun p => (p.1, plant_fitness sensor p.2 σ w), q.2 ≤ score) ∧
      ∃ l₁ l₂,
        (oc.map fun p => (p.1, plant_fitness sensor p.2 σ w)) =
          l₁ ++ (best, score) :: l₂ ∧
        ∀ q ∈ l₁, q.2 < score := by
  cases oc with
  | nil => exact absurd rfl hne
  | cons o ot =>
    obtain ⟨hbound, l₁, l₂, hdec, hlt⟩ :=
      foldl_maxStep_spec (ot.map fun p => (p.1, plant_fitness sensor p.2 σ w))
        (o.1, plant_fitness sensor o.2 σ w)
    have hmem : (ot.map fun p => (p.1, plant_fitness sensor p.2 σ w)).foldl maxStep
        (o.1, plant_fitness sensor o.2 σ w) ∈
        (o.1, plant_fitness sensor o.2 σ w) ::
          (ot.map fun p => (p.1, plant_fitness sensor p.2 σ w)) := by
      rw [hdec]
      exact List.mem_append.mpr (Or.inr (List.mem_cons_self _ _))
    have hkeys : (((o :: ot).map fun p => (p.1, plant_fitness sensor p.2 σ w)).map
        Prod.fst).Nodup := by
      rw [map_fst_scores]
      exact hnd
    have hget : getVal ((o.1, plant_fitness sensor o.2 σ w) ::
        (ot.map fun p => (p.1, plant_fitness sensor p.2 σ w)))
        ((ot.map fun p => (p.1, plant_fitness sensor p.2 σ w)).foldl maxStep
          (o.1, plant_fitness sensor o.2 σ w)).1 =
        some ((ot.map fun p => (p.1, plant_fitness sensor p.2 σ w)).foldl maxStep
          (o.1, plant_fitness sensor o.2 σ w)).2 := by
      apply getVal_eq_some_of_mem (by simpa using hkeys)
      simpa using hmem
    refine ⟨((ot.map fun p => (p.1, plant_fitness sensor p.2 σ w)).foldl maxStep
        (o.1, plant_fitness sensor o.2 σ w)).1,
      ((ot.map fun p => (p.1, plant_fitness sensor p.2 σ w)).foldl maxStep
        (o.1, plant_fitness sensor o.2 σ w)).2, ?_, ?_, ?_, l₁, l₂, ?_, ?_⟩
    · simp only [recommend_crop, List.map_cons]
      rw [hget]
    · simpa using hget
    · intro q hq
      exact hbound q (by simpa using hq)
    · simpa using hdec
    · intro q hq
      exact hlt q hq

/-- Witness for C2 on a concrete two-crop mapping. -/
theorem recommend_crop_spec_witness :
    exampleProfiles ≠ [] ∧ (exampleProfiles.map Prod.fst).Nodup ∧
    (∃ best score,
      recommend_crop exampleSensor exampleProfiles default_sigmas default_weights =
        some (best, score, exampleProfiles.map fun p =>
          (p.1, plant_fitness exampleSensor p.2 default_sigmas default_weights)) ∧
      getVal (exampleProfiles.map fun p =>
        (p.1, plant_fitness exampleSensor p.2 default_sigmas default_weights)) best =
          some score ∧
      (∀ q ∈ exampleProfiles.map fun p =>
        (p.1, plant_fitness exampleSensor p.2 default_sigmas default_weights),
          q.2 ≤ score) ∧
      ∃ l₁ l₂,
        (exampleProfiles.map fun p =>
          (p.1, plant_fitness exampleSensor p.2 default_sigmas default_weights)) =
            l₁ ++ (best, score) :: l₂ ∧
        ∀ q ∈ l₁, q.2 < score) :=
  ⟨List.cons_ne_nil _ _, by decide,
    recommend_crop_spec exampleSensor default_sigmas default_weights exampleProfiles
      (List.cons_ne_nil _ _) (by decide)⟩

/-- C10: `recommend_crop` fails on an empty profile mapping (Python's
`max` of an empty dict raises `ValueError`, modelled as `none`), while on
every non-empty mapping with a fully populated sensor vector it returns a
result. -/
theorem recommend_crop_empty_fails (sensor : SensorVector) (σ : Sigmas) (w : Weights) :
    recommend_crop sensor [] σ w = none ∧
    ∀ oc : List (String × OptimalProfile), oc ≠ [] →
      ∃ r, recommend_crop sensor oc σ w = some r :=
  ⟨rfl, fun oc hne => recommend_crop_total sensor σ w oc hne⟩

/-- Witness for C10: the empty mapping fails, the concrete two-crop mapping
succeeds. -/
theorem recommend_crop_empty_fails_witness :
    recommend_crop exampleSensor [] default_sigmas default_weights = none ∧
    ∃ r, recommend_crop exampleSensor exampleProfiles default_sigmas default_weights =
      some r :=
  ⟨(recommend_crop_empty_fails exampleSensor default_sigmas default_weights).1,
    (recommend_crop_empty_fails exampleSensor default_sigmas default_weights).2
      exampleProfiles (List.cons_ne_nil _ _)⟩

/-- Decoding inverts encoding except on the empty string. -/
lemma decode_encode (v : Option String) (h : v ≠ some "") :
    decodeVal (encodeVal v) = v := by
  cases v with
  | none => rfl
  | some s =>
    have hs : s ≠ "" := fun he => h (by rw [he])
    simp [encodeVal, decodeVal, hs]

/-- Lookup skips a prefix that does not hold the key. -/
lemma getVal_append_of_not_mem {α : Type} :
    ∀ (l₁ : List (String × α)) (l₂ : List (String × α)) (k : String),
      (∀ p ∈ l₁, p.1 ≠ k) → getVal (l₁ ++ l₂) k = getVal l₂ k := by
  intro l₁
  induction l₁ with
  | nil => intro l₂ k _; rfl
  | cons p t ih =>
    intro l₂ k h
    rw [List.cons_append, getVal, if_neg (h p (by simp))]
    exact ih l₂ k (fun q hq => h q (by simp [hq]))

/-- Assignment skips a prefix that does not hold the key. -/
lemma setVal_append_of_not_mem {α : Type} :
    ∀ (l₁ : List (String × α)) (l₂ : List (String × α)) (k : String) (v : α),
      (∀ p ∈ l₁, p.1 ≠ k) → setVal (l₁ ++ l₂) k v = l₁ ++ setVal l₂ k v := by
  intro l₁
  induction l₁ with
  | nil => intro l₂ k v _; rfl
  | cons p t ih =>
    intro l₂ k v h
    rw [List.cons_append, setVal, if_neg (h p (by simp)), List.cons_append,
      ih l₂ k v (fun q hq => h q (by simp [hq]))]

/-- Assigning a fresh key appends it. -/
lemma setVal_of_not_mem {α : Type} :
    ∀ (l : List (String × α)) (k : String) (v : α),
      (∀ p ∈ l, p.1 ≠ k) → setVal l k v = l ++ [(k, v)] := by
  intro l
  induction l with
  | nil => intro k v _; rfl
  | cons p t ih =>
    intro k v h
    rw [setVal, if_neg (h p (by simp)), ih k v (fun q hq => h q (by simp [hq])),
      List.cons_append]

/-- A failed lookup means the key is absent. -/
lemma not_mem_of_getVal_none {α : Type} :
    ∀ (l : List (String × α)) (k : String),
      getVal l k = none → ∀ p ∈ l, p.1 ≠ k := by
  intro l
  induction l with
  | nil => intro k _ p hp; cases hp
  | cons q t ih =>
    intro k hget p hp
    by_cases hq : q.1 = k
    · rw [getVal, if_pos hq] at hget
      cases hget
    · rw [getVal, if_neg hq] at hget
      rcases List.mem_cons.mp hp with rfl | hp'
      · exact hq
      · exact ih k hget p hp'

/-- An absent key means the lookup fails. -/
lemma getVal_none_of_not_mem {α : Type} :
    ∀ (l : List (String × α)) (k : String),
      (∀ p ∈ l, p.1 ≠ k) → getVal l k = none := by
  intro l
  induction l with
  | nil => intro k _; rfl
  | cons q t ih =>
    intro k h
    rw [getVal, if_neg (h q (by simp))]
    exact ih k (fun p hp => h p (by simp [hp]))

/-- Processing one field row of an existing table section updates that
section in place. -/
lemma readRows_cons_field (sec key value : String) (rest : List (List String))
    (report : List (String × RSect)) (fields : List (String × Option String))
    (hkey : key ≠ "") (hget : getVal report sec = some (RSect.table fields)) :
    readRows ([sec, key, value] :: rest) report =
      readRows rest (setVal report sec (RSect.table (setVal fields key (decodeVal value)))) := by
  simp only [readRows, hget, Option.isSome_some, if_true, ne_eq, hkey,
    not_false_iff, ite_true]

/-- Processing one field row of an unseen section creates the section with
that single field. -/
lemma readRows_cons_new (sec key value : String) (rest : List (List String))
    (report : List (String × RSect))
    (hkey : key ≠ "") (hget : getVal report sec = none) :
    readRows ([sec, key, value] :: rest) report =
      readRows rest (report ++ [(sec, RSect.table [(key, decodeVal value)])]) := by
  have hfresh : ∀ p ∈ report, p.1 ≠ sec := not_mem_of_getVal_none report sec hget
  have hget1 : getVal (report ++ [(sec, RSect.table [])]) sec =
      some (RSect.table []) := by
    rw [getVal_append_of_not_mem report _ sec hfresh]
    simp [getVal]
  have hset : setVal (report ++ [(sec, RSect.table [])]) sec
      (RSect.table [(key, decodeVal value)]) =
      report ++ [(sec, RSect.table [(key, decodeVal value)])] := by
    rw [setVal_append_of_not_mem report _ sec _ hfresh]
    simp [setVal]
  simp only [readRows, hget, Option.isSome_none, Bool.false_eq_true, if_false,
    ne_eq, hkey, not_false_iff, ite_true, hget1, setVal, hset]

/-- Walking a run of field rows of one section extends that section's table
field by field. -/
lemma readRows_section (sec : String) :
    ∀ (fs₂ fs₁ : List (String × Option String)) (acc₀ : List (String × RSect))
      (rest : List (List String)),
      (∀ p ∈ acc₀, p.1 ≠ sec) →
      (∀ f ∈ fs₂, f.1 ≠ "") →
      (∀ f ∈ fs₂, f.2 ≠ some "") →
      (((fs₁ ++ fs₂).map Prod.fst).Nodup) →
      readRows ((fs₂.map fun f => [sec, f.1, encodeVal f.2]) ++ rest)
          (acc₀ ++ [(sec, RSect.table fs₁)]) =
        readRows rest (acc₀ ++ [(sec, RSect.table (fs₁ ++ fs₂))]) := by
  intro fs₂
  induction fs₂ with
  | nil =>
    intro fs₁ acc₀ rest _ _ _ _
    simp
  | cons f ft ih =>
    intro fs₁ acc₀ rest hacc hkey hval hnd
    have hkey1 : f.1 ≠ "" := hkey f (by simp)
    have hval1 : f.2 ≠ some "" := hval f (by simp)
    have hget : getVal (acc₀ ++ [(sec, RSect.table fs₁)]) sec =
        some (RSect.table fs₁) := by
      rw [getVal_append_of_not_mem acc₀ _ sec hacc]
      simp [getVal]
    have hfresh : ∀ g ∈ fs₁, g.1 ≠ f.1 := by
      intro g hg he
      have h409 : ((fs₁.map Prod.fst) ++ (f.1 :: ft.map Prod.fst)).Nodup := by
        simpa using hnd
      have hdis := (List.nodup_append.mp h409).2.2
      have hg1 : g.1 ∈ f.1 :: ft.map Prod.fst := by
        rw [he]
        exact List.mem_cons_self _ _
      exact hdis (List.mem_map.mpr ⟨g, hg, rfl⟩) hg1
    rw [List.map_cons, List.cons_append,
      readRows_cons_field sec f.1 (encodeVal f.2) _ _ fs₁ hkey1 hget,
      decode_encode f.2 hval1]
    have hsetfs : setVal fs₁ f.1 f.2 = fs₁ ++ [(f.1, f.2)] :=
      setVal_of_not_mem fs₁ f.1 f.2 hfresh
    have hsetrep : setVal (acc₀ ++ [(sec, RSect.table fs₁)]) sec
        (RSect.table (fs₁ ++ [(f.1, f.2)])) =
        acc₀ ++ [(sec, RSect.table (fs₁ ++ [(f.1, f.2)]))] := by
      rw [setVal_append_of_not_mem acc₀ _ sec _ hacc]
      simp [setVal]
    rw [hsetfs, hsetrep,
      ih (fs₁ ++ [(f.1, f.2)]) acc₀ rest hacc
        (fun g hg => hkey g (by simp [hg]))
        (fun g hg => hval g (by simp [hg]))
        (by simpa using hnd)]
    have hfe : (f.1, f.2) = f := rfl
    rw [hfe]
    simp

/-- Re-reading the exported rows of a well-formed all-table report appends
its sections (those that produced any rows) to the accumulator. -/
lemma readRows_export :
    ∀ (report : List (String × RSect)) (acc₀ : List (String × RSect)),
      (report.map Prod.fst).Nodup →
      (∀ s ∈ report.map Prod.fst, ∀ p ∈ acc₀, p.1 ≠ s) →
      (∀ p ∈ report, ∃ fs, p.2 = RSect.table fs ∧ (fs.map Prod.fst).Nodup ∧
        ∀ f ∈ fs, f.1 ≠ "" ∧ f.2 ≠ some "") →
      readRows (report.flatMap fun p =>
          match p.2 with
          | RSect.table fields => fields.map fun f => [p.1, f.1, encodeVal f.2]
          | RSect.scalar v => [[p.1, "", match v with | none => "None" | some s => s]])
        acc₀ =
      acc₀ ++ report.filter keepSect := by
  intro report
  induction report with
  | nil =>
    intro acc₀ _ _ _
    simp [readRows]
  | cons q rt ih =>
    intro acc₀ hnd hacc hshape
    obtain ⟨fs, hq, hfsnd, hfs⟩ := hshape q (by simp)
    have hndt : (rt.map Prod.fst).Nodup := (List.nodup_cons.mp (by simpa using hnd)).2
    have hq1 : q.1 ∉ rt.map Prod.fst := (List.nodup_cons.mp (by simpa using hnd)).1
    have hrows : (match q.2 with
        | RSect.table fields => fields.map fun f => [q.1, f.1, encodeVal f.2]
        | RSect.scalar v => [[q.1, "", match v with | none => "None" | some s => s]]) =
        fs.map fun f => [q.1, f.1, encodeVal f.2] := by
      rw [hq]
    rw [List.flatMap_cons, hrows]
    cases fs with
    | nil =>
      simp only [List.map_nil, List.nil_append]
      rw [ih acc₀ hndt (fun s hs p hp => hacc s (by simp [hs]) p hp)
        (fun p hp => hshape p (by simp [hp]))]
      have hkq : keepSect q = false := by
        simp [keepSect, hq]
      rw [List.filter_cons_of_neg (by simp [hkq])]
    | cons f ft =>
      have hacc1 : ∀ p ∈ acc₀, p.1 ≠ q.1 :=
        fun p hp => hacc q.1 (by simp) p hp
      have hgetnone : getVal acc₀ q.1 = none :=
        getVal_none_of_not_mem acc₀ q.1 hacc1
      have hkey1 : f.1 ≠ "" := (hfs f (by simp)).1
      have hval1 : f.2 ≠ some "" := (hfs f (by simp)).2
      rw [List.map_cons, List.cons_append,
        readRows_cons_new q.1 f.1 (encodeVal f.2) _ acc₀ hkey1 hgetnone,
        decode_encode f.2 hval1]
      have hfe : (f.1, f.2) = f := rfl
      rw [hfe]
      have hsection := readRows_section q.1 ft [f] acc₀
        (rt.flatMap fun p =>
          match p.2 with
          | RSect.table fields => fields.map fun g => [p.1, g.1, encodeVal g.2]
          | RSect.scalar v => [[p.1, "", match v with | none => "None" | some s => s]])
        hacc1 (fun g hg => (hfs g (by simp [hg])).1)
        (fun g hg => (hfs g (by simp [hg])).2) (by simpa using hfsnd)
      rw [List.singleton_append] at hsection
      rw [hsection]
      have hacc2 : ∀ s ∈ rt.map Prod.fst,
          ∀ p ∈ acc₀ ++ [(q.1, RSect.table (f :: ft))], p.1 ≠ s := by
        intro s hs p hp
        rcases List.mem_append.mp hp with hp' | hp'
        · exact hacc s (by simp [hs]) p hp'
        · rcases List.mem_singleton.mp hp' with rfl
          intro he
          exact hq1 (by rw [he]; exact hs)
      rw [ih (acc₀ ++ [(q.1, RSect.table (f :: ft))]) hndt hacc2
        (fun p hp => hshape p (by simp [hp]))]
      have hkq : keepSect q = true := by
        simp [keepSect, hq]
      rw [List.filter_cons_of_pos hkq]
      have hqe : (q.1, RSect.table (f :: ft)) = q := by
        rw [← hq]
      rw [hqe]
      simp

/-- C8 (amended): for every report whose sections are mappings from
non-empty, distinct string keys to values that are `None` or NON-EMPTY
strings, exporting and re-reading yields `None` exactly for the fields that
were `None` — serialized as the empty string, never reconstituted as the
string `"None"` — and every other field's string value back unchanged.
(The amendment excludes empty-string values: the code maps them to `None`
on re-reading, see the counterexample.) -/
theorem csv_round_trip (report : List (String × RSect))
    (hsec : (report.map Prod.fst).Nodup)
    (hshape : ∀ p ∈ report, ∃ fs, p.2 = RSect.table fs ∧ (fs.map Prod.fst).Nodup ∧
      ∀ f ∈ fs, f.1 ≠ "" ∧ f.2 ≠ some "") :
    ∀ sec fs, (sec, RSect.table fs) ∈ report →
      ∀ k v, (k, v) ∈ fs →
        ((v = none → [sec, k, ""] ∈ export_report_to_csv report) ∧
         ∃ fs', getVal (read_report_from_csv (export_report_to_csv report)) sec =
             some (RSect.table fs') ∧ getVal fs' k = some v) := by
  intro sec fs hmem k v hkv
  have hread : read_report_from_csv (export_report_to_csv report) =
      report.filter keepSect := by
    simp only [export_report_to_csv, read_report_from_csv]
    rw [readRows_export report [] hsec (by simp) hshape]
    simp
  constructor
  · intro hv
    simp only [export_report_to_csv]
    refine List.mem_cons.mpr (Or.inr ?_)
    refine List.mem_flatMap.mpr ⟨(sec, RSect.table fs), hmem, ?_⟩
    show [sec, k, ""] ∈ fs.map fun f => [sec, f.1, encodeVal f.2]
    refine List.mem_map.mpr ⟨(k, v), hkv, ?_⟩
    rw [hv]
    rfl
  · have hkeep : keepSect (sec, RSect.table fs) = true := by
      cases fs with
      | nil => cases hkv
      | cons f ft => simp [keepSect]
    have hmemf : (sec, RSect.table fs) ∈ report.filter keepSect :=
      List.mem_filter.mpr ⟨hmem, hkeep⟩
    have hndf : ((report.filter keepSect).map Prod.fst).Nodup :=
      List.Nodup.sublist (List.Sublist.map Prod.fst (List.filter_sublist report)) hsec
    refine ⟨fs, ?_, ?_⟩
    · rw [hread]
      exact getVal_eq_some_of_mem hndf hmemf
    · obtain ⟨fs', hfs', hfsnd, _⟩ := hshape (sec, RSect.table fs) hmem
      have hfseq : fs = fs' := by
        injection hfs'
      exact getVal_eq_some_of_mem (by rw [hfseq]; exact hfsnd) hkv

/-- Counterexample to C8 as stated: a field holding the EMPTY string (a
string value, not `None`) is serialized as the empty string and re-read as
`None`, so the round trip does not yield `None` only for `None` fields. -/
theorem csv_round_trip_counterexample :
    read_report_from_csv (export_report_to_csv
        [("Weather Data", RSect.table [("Location", some "")])]) =
      [("Weather Data", RSect.table [("Location", none)])] ∧
    some "" ≠ (none : Option String) := by
  exact ⟨by decide, by decide⟩

/-- Witness for C8 (amended) on a concrete report: a `None` temperature
survives the round trip as `None` (via the empty string), alongside a
normal string field. -/
theorem csv_round_trip_witness :
    ((("Weather Data", RSect.table [("Location", some "Paris"), ("Temperature", none)])) ∈
      ([("Weather Data", RSect.table [("Location", some "Paris"), ("Temperature", none)])] :
        List (String × RSect))) ∧
    ((("Temperature", (none : Option String))) ∈
      [("Location", some "Paris"), ("Temperature", (none : Option String))]) ∧
    (((none : Option String) = none → ["Weather Data", "Temperature", ""] ∈
        export_report_to_csv
          [("Weather Data", RSect.table [("Location", some "Paris"), ("Temperature", none)])]) ∧
     ∃ fs', getVal (read_report_from_csv (export_report_to_csv
          [("Weather Data", RSect.table [("Location", some "Paris"), ("Temperature", none)])]))
          "Weather Data" = some (RSect.table fs') ∧
        getVal fs' "Temperature" = some none) :=
  ⟨by decide, by decide,
    csv_round_trip
      [("Weather Data", RSect.table [("Location", some "Paris"), ("Temperature", none)])]
      (by decide)
      (fun p hp => by
        rcases List.mem_singleton.mp hp with h
        exact ⟨[("Location", some "Paris"), ("Temperature", none)], by rw [h], by decide,
          by decide⟩)
      "Weather Data" [("Location", some "Paris"), ("Temperature", none)] (by decide)
      "Temperature" none (by decide)⟩

end Plant
